import Mathlib

/-!
Pharmacy partnership tier simulation: verification development.

Shallow embedding of the revenue aggregation and tier-classification engine of
`app.py` (and its earlier variant `simulation_placement_thresholdcategory.py`,
whose filter/aggregate/classify/table code is identical apart from the optional
user filters that only `app.py` has).

Modelling conventions:
* A raw table is a list of rows together with presence flags for the columns
  that the script looks up conditionally (`'Channel' in df.columns`, ...).
  Reading a column of an absent flag is the pandas `KeyError`; referencing one
  of the uninitialised multiselect variables (`causale`, `canale`,
  `scope_filter`) when its column is absent is the Python `NameError` the
  script would raise, so the filter stage returns `Except String`.
* Revenue amounts are modelled as exact integers (`Int`); floating-point
  rounding is outside the scope of this development.
* `groupby('Cod CRM', sort=True)` / pandas `pivot` produce the distinct keys in
  ascending order; this is embedded as `insertionSort` over deduplicated keys.
* `groupby` over the ordered categorical `partnership_category` keeps all four
  categories (the script relies on `observed=False`, which it passes explicitly
  at the other groupby sites).
-/

/-- One raw transaction row (`TransactionRecord`).  Field names follow the
column names of the input table: `Cod CRM`, `Channel`, `Product_Type`,
`Causale`, `Canale`, `Out of Scope \nFilter`, ` Cluster Check `, `tier`,
`Brand`, `Net Price 1 Revenue (Imponibile)`. -/
structure Row where
  codCRM : Nat
  Channel : String
  Product_Type : String
  Causale : String
  Canale : String
  outOfScopeFilter : String
  clusterCheck : String
  tier : String
  Brand : String
  netPrice1Revenue : Int
deriving DecidableEq, Repr

/-- The uploaded table: rows plus presence flags for the columns that the
script tests with `'...' in df.columns` or reads directly (absent column ⇒
pandas `KeyError` on read). -/
structure Table where
  hasChannel : Bool
  hasProductType : Bool
  hasCausale : Bool
  hasCanale : Bool
  hasScope : Bool
  hasCluster : Bool
  rows : List Row
deriving DecidableEq, Repr

/-- User-supplied per-column inclusion lists (the multiselect values).  An
empty list is "no filter supplied" (Python falsiness of `[]`). -/
structure Filters where
  channels : List String
  products : List String
  causale : List String
  canale : List String
  scope_filter : List String
deriving DecidableEq, Repr

/-- The four revenue thresholds (`st.sidebar.number_input`, app.py lines
62–65). -/
structure ThresholdConfig where
  silver_min : Int
  gold_min : Int
  gold_max : Int
  platinum_min : Int
deriving DecidableEq, Repr

/-- The partnership categories, in the fixed display order of the script's
`order` list. -/
inductive PartnershipCategory where
  | Silver
  | Gold
  | Platinum
  | Unassigned
deriving DecidableEq, Repr

/-- Fail with `msg` (an uncaught Python exception) unless `b` holds. -/
def require (b : Bool) (msg : String) : Except String Unit :=
  if b then .ok () else .error msg

/-- User filter stage, app.py lines 31–56.  `channels` and `products` are
initialised to `[]` (line 32) so their filters are skipped when the column is
absent; `causale`, `canale` and `scope_filter` are only assigned inside the
column-presence checks (lines 37–42), so when their column is absent the later
`if causale:` / `if canale:` / `if scope_filter:` raises `NameError`. -/
def df_filtered (t : Table) (fs : Filters) : Except String (List Row) := do
  let channels := if t.hasChannel then fs.channels else []
  let products := if t.hasProductType then fs.products else []
  let r1 := if channels.isEmpty then t.rows
            else t.rows.filter fun x => channels.contains x.Channel
  let r2 := if products.isEmpty then r1
            else r1.filter fun x => products.contains x.Product_Type
  require t.hasCausale "NameError: name causale is not defined"
  let r3 := if fs.causale.isEmpty then r2
            else r2.filter fun x => fs.causale.contains x.Causale
  require t.hasCanale "NameError: name canale is not defined"
  let r4 := if fs.canale.isEmpty then r3
            else r3.filter fun x => fs.canale.contains x.Canale
  require t.hasScope "NameError: name scope_filter is not defined"
  let r5 := if fs.scope_filter.isEmpty then r4
            else r4.filter fun x => fs.scope_filter.contains x.outOfScopeFilter
  return r5

/-- The fixed eligibility rule of app.py lines 68–73: Channel, Causale, scope
flag and the two eligible cluster-check codes. -/
def fixedRule (r : Row) : Bool :=
  r.Channel == "Independent Pharmacies" &&
  r.Causale == "Vendita" &&
  r.outOfScopeFilter == "In scope" &&
  ([" 1.EL ", " 2.L "].contains r.clusterCheck)

/-- Embedding of `merged_pharmacies`, app.py lines 68–73.  Reading each of the four
fixed-rule columns on a table that lacks it raises `KeyError` (checked in the
left-to-right evaluation order of the Python expression). -/
def merged_pharmacies (t : Table) (fs : Filters) : Except String (List Row) := do
  let dff ← df_filtered t fs
  require t.hasChannel "KeyError: Channel"
  require t.hasCausale "KeyError: Causale"
  require t.hasScope "KeyError: Out of Scope Filter"
  require t.hasCluster "KeyError: Cluster Check"
  return dff.filter fixedRule

/-- Distinct values of a list in ascending order: the semantics of a pandas
`groupby(key, sort=True)` index / `pivot` column index. -/
def sortedDedup {α : Type} [LinearOrder α] [DecidableEq α] (l : List α) : List α :=
  List.insertionSort (· ≤ ·) l.dedup

/-- The distinct pharmacy identifiers of a record set, ascending
(`groupby('Cod CRM', sort=True)`, app.py line 77). -/
def sortedKeys (rows : List Row) : List Nat :=
  sortedDedup (rows.map Row.codCRM)

/-- Revenue sum of one pharmacy's rows (the `sum()` of app.py line 78). -/
def totalRev (rows : List Row) (p : Nat) : Int :=
  ((rows.filter fun r => r.codCRM == p).map Row.netPrice1Revenue).sum

/-- Embedding of `all_pharmacy_revenue`, app.py lines 76–79: one `(Cod CRM, total revenue)`
entry per distinct pharmacy, ascending by key. -/
def all_pharmacy_revenue (rows : List Row) : List (Nat × Int) :=
  (sortedKeys rows).map fun p => (p, totalRev rows p)

/-- Tier-2/3 row predicate (`isin(['Tier 2', 'Tier 3'])`, app.py line 82). -/
def tier23 (r : Row) : Bool :=
  r.tier == "Tier 2" || r.tier == "Tier 3"

/-- Embedding of `rev_tier23`, app.py lines 81–85: revenue sums over tier-2/3 rows, keyed by
the pharmacies that have such rows. -/
def rev_tier23 (rows : List Row) : List (Nat × Int) :=
  let t23 := rows.filter tier23
  (sortedKeys t23).map fun p => (p, totalRev t23 p)

/-- Distinct `Brand` count of one `(pharmacy, tier)` cell (`nunique`, app.py
lines 87–90); 0 when the combination has no rows (the pivot's `fillna(0)`,
line 91). -/
def numProducts (rows : List Row) (p : Nat) (t : String) : Nat :=
  (((rows.filter fun r => r.codCRM == p && r.tier == t).map Row.Brand).dedup).length

/-- The tier labels occurring in the record set, ascending: the column index of
`tier_counts_pivot_use` (app.py lines 91–92). -/
def tierLabels (rows : List Row) : List String :=
  sortedDedup (rows.map Row.tier)

/-- One `PharmacyAggregate` row of the merged `threshold_data` table. -/
structure PharmacyAggregate where
  codCRM : Nat
  total_net1rev_imponibile : Int
  tierCounts : List (String × Nat)
  tier23_net1rev_imponibile : Option Int
  tier_2_and_3_count : Nat
deriving DecidableEq, Repr

/-- Embedding of `threshold_data`, app.py lines 94–96: `all_pharmacy_revenue` left-merged
with the per-tier product counts (zero-filled) and with `rev_tier23` (absent
key ⇒ NaN, modelled as `none`), plus the `"Tier 2 & 3"` column
`threshold_data.get("Tier 2", 0) + threshold_data.get("Tier 3", 0)` — each
`get` falls back to the scalar 0 when no row of the whole record set carries
that tier label (so the pivot has no such column). -/
def threshold_data (rows : List Row) : List PharmacyAggregate :=
  (sortedKeys rows).map fun p =>
    { codCRM := p
      total_net1rev_imponibile := totalRev rows p
      tierCounts := (tierLabels rows).map fun t => (t, numProducts rows p t)
      tier23_net1rev_imponibile := (rev_tier23 rows).lookup p
      tier_2_and_3_count :=
        (if rows.any fun r => r.tier == "Tier 2" then numProducts rows p "Tier 2" else 0) +
        (if rows.any fun r => r.tier == "Tier 3" then numProducts rows p "Tier 3" else 0) }

/-- The classifier, app.py lines 99–109: initialise to `Unassigned`, then the
three overwrite rules in program order (Silver, Gold, Platinum — later rule
wins). -/
def partnership_category (cfg : ThresholdConfig) (rev : Int) : PartnershipCategory :=
  let c := PartnershipCategory.Unassigned
  let c := if rev > cfg.silver_min then PartnershipCategory.Silver else c
  let c := if cfg.gold_min ≤ rev ∧ rev < cfg.gold_max then PartnershipCategory.Gold else c
  let c := if rev ≥ cfg.platinum_min then PartnershipCategory.Platinum else c
  c

/-- The spec's reformulation of the classifier ("a single ordered rule list
evaluated once per pharmacy, returning the last matching rule's category"):
fold over the rule list `2 → 3 → 4`, later match always wins. -/
def lastMatchCategory (cfg : ThresholdConfig) (rev : Int) : PartnershipCategory :=
  let rules : List (Bool × PartnershipCategory) :=
    [(decide (rev > cfg.silver_min), PartnershipCategory.Silver),
     (decide (cfg.gold_min ≤ rev ∧ rev < cfg.gold_max), PartnershipCategory.Gold),
     (decide (rev ≥ cfg.platinum_min), PartnershipCategory.Platinum)]
  rules.foldl (fun acc rule => if rule.1 then rule.2 else acc) PartnershipCategory.Unassigned

/-- The classifier with the Gold rule removed — comparison point for the
spec's "Silver, Platinum and Unassigned assignments are unaffected" when the
Gold bucket is empty. -/
def categoryWithoutGoldRule (cfg : ThresholdConfig) (rev : Int) : PartnershipCategory :=
  let c := PartnershipCategory.Unassigned
  let c := if rev > cfg.silver_min then PartnershipCategory.Silver else c
  let c := if rev ≥ cfg.platinum_min then PartnershipCategory.Platinum else c
  c

/-- Category of one pharmacy of the aggregate (app.py lines 100–109 operate on
`all_pharmacy_revenue`'s `total_net1rev_imponibile`). -/
def categoryOf (cfg : ThresholdConfig) (rows : List Row) (p : Nat) : PartnershipCategory :=
  partnership_category cfg (totalRev rows p)

/-- The fixed display order `["Silver", "Gold", "Platinum", "Unassigned"]`
(app.py line 99). -/
def categoryOrder : List PartnershipCategory :=
  [PartnershipCategory.Silver, PartnershipCategory.Gold,
   PartnershipCategory.Platinum, PartnershipCategory.Unassigned]

/-- The label of a category (the categorical's string values). -/
def catName : PartnershipCategory → String
  | PartnershipCategory.Silver => "Silver"
  | PartnershipCategory.Gold => "Gold"
  | PartnershipCategory.Platinum => "Platinum"
  | PartnershipCategory.Unassigned => "Unassigned"

/-- Embedding of `category_table_pivot`, app.py lines 118–120: for each category (in the
fixed order, all four kept by the ordered categorical) the list of its
pharmacy identifiers.  The padding of ragged columns to a rectangle is
display-only and not modelled. -/
def category_table_pivot (cfg : ThresholdConfig) (rows : List Row) :
    List (PartnershipCategory × List Nat) :=
  categoryOrder.map fun c =>
    (c, (sortedKeys rows).filter fun p => categoryOf cfg rows p == c)

/-- Embedding of `num_pharmacies` of one summary row (app.py line 123). -/
def num_pharmacies (cfg : ThresholdConfig) (rows : List Row) (c : PartnershipCategory) : Nat :=
  ((sortedKeys rows).filter fun p => categoryOf cfg rows p == c).length

/-- Embedding of `total_revenue` of one summary row (app.py line 124). -/
def total_revenue (cfg : ThresholdConfig) (rows : List Row) (c : PartnershipCategory) : Int :=
  (((sortedKeys rows).filter fun p => categoryOf cfg rows p == c).map (totalRev rows)).sum

/-- The per-category part of `summary_table` (app.py lines 122–125): one row
per category in the fixed order. -/
def summary_rows (cfg : ThresholdConfig) (rows : List Row) : List (String × Nat × Int) :=
  categoryOrder.map fun c => (catName c, num_pharmacies cfg rows c, total_revenue cfg rows c)

/-- The synthetic grand-total values (app.py lines 128–133): sums over the
summary rows whose category is not `'Unassigned'`. -/
def total_row (cfg : ThresholdConfig) (rows : List Row) : Nat × Int :=
  let nu := (summary_rows cfg rows).filter fun x => x.1 != "Unassigned"
  ((nu.map fun x => x.2.1).sum, (nu.map fun x => x.2.2).sum)

/-- Embedding of `summary_table`, app.py lines 122–135: the four category rows followed by
the appended grand-total row. -/
def summary_table (cfg : ThresholdConfig) (rows : List Row) : List (String × Nat × Int) :=
  summary_rows cfg rows ++
    [("Total Net 1 Rev Imponibile (ex-Unassigned)",
      (total_row cfg rows).1, (total_row cfg rows).2)]

/-- The engine end to end: filter, aggregate, classify, build tables.  Any
uncaught Python exception of the filter stage aborts the run with no partial
output. -/
def compute (t : Table) (fs : Filters) (cfg : ThresholdConfig) :
    Except String (List PharmacyAggregate × List (PartnershipCategory × List Nat) ×
      List (String × Nat × Int)) := do
  let m ← merged_pharmacies t fs
  return (threshold_data m, category_table_pivot cfg m, summary_table cfg m)

/-- The pure row transformation that `df_filtered` performs when none of the
`NameError`s fire: the five conditional inclusion filters of app.py lines
46–56 in program order. -/
def appliedFilters (t : Table) (fs : Filters) : List Row :=
  let channels := if t.hasChannel then fs.channels else []
  let products := if t.hasProductType then fs.products else []
  let r1 := if channels.isEmpty then t.rows
            else t.rows.filter fun x => channels.contains x.Channel
  let r2 := if products.isEmpty then r1
            else r1.filter fun x => products.contains x.Product_Type
  let r3 := if fs.causale.isEmpty then r2
            else r2.filter fun x => fs.causale.contains x.Causale
  let r4 := if fs.canale.isEmpty then r3
            else r3.filter fun x => fs.canale.contains x.Canale
  let r5 := if fs.scope_filter.isEmpty then r4
            else r4.filter fun x => fs.scope_filter.contains x.outOfScopeFilter
  r5

/-- A value passes an optional inclusion list when no filter is supplied
(empty list) or the value is listed. -/
def passOpt (sel : List String) (v : String) : Bool :=
  sel.isEmpty || sel.contains v

/-- The conjunction of all user filters that `df_filtered` applies to a row;
a column whose presence flag is off contributes no constraint for Channel and
Product_Type (line 32's initialisation). -/
def userPass (t : Table) (fs : Filters) (r : Row) : Bool :=
  passOpt (if t.hasChannel then fs.channels else []) r.Channel &&
  passOpt (if t.hasProductType then fs.products else []) r.Product_Type &&
  passOpt fs.causale r.Causale &&
  passOpt fs.canale r.Canale &&
  passOpt fs.scope_filter r.outOfScopeFilter

/-- A fully in-scope row used as concrete input in witnesses. -/
def rowA : Row :=
  { codCRM := 1, Channel := "Independent Pharmacies", Product_Type := "PT",
    Causale := "Vendita", Canale := "CN", outOfScopeFilter := "In scope",
    clusterCheck := " 1.EL ", tier := "Tier 2", Brand := "BrandA",
    netPrice1Revenue := 1500 }

/-- A table that has every expected column except the purely optional
`Product_Type`. -/
def tableNoProductType : Table :=
  { hasChannel := true, hasProductType := false, hasCausale := true,
    hasCanale := true, hasScope := true, hasCluster := true, rows := [rowA] }

/-- A table that has every expected column except the purely optional
`Canale`. -/
def tableNoCanale : Table :=
  { hasChannel := true, hasProductType := true, hasCausale := true,
    hasCanale := false, hasScope := true, hasCluster := true, rows := [rowA] }

/-- No user filter selected on any column. -/
def noFilters : Filters := ⟨[], [], [], [], []⟩

/-- A second in-scope row, for pharmacy 2, eligible through the other
cluster-check code. -/
def rowB : Row :=
  { codCRM := 2, Channel := "Independent Pharmacies", Product_Type := "PT",
    Causale := "Vendita", Canale := "CN", outOfScopeFilter := "In scope",
    clusterCheck := " 2.L ", tier := "Tier 2", Brand := "BrandB",
    netPrice1Revenue := 900 }

/-- The row `rowA` with its tier label and brand identifier relabelled but the
same pharmacy and revenue. -/
def rowARelabelled : Row :=
  { rowA with tier := "OtherTier", Brand := "OtherBrand" }

/-- A table with every expected column and no rows at all. -/
def tableNoRows : Table :=
  { hasChannel := true, hasProductType := true, hasCausale := true,
    hasCanale := true, hasScope := true, hasCluster := true, rows := [] }

/-- A table with every expected column and the two in-scope rows. -/
def tableAB : Table :=
  { hasChannel := true, hasProductType := true, hasCausale := true,
    hasCanale := true, hasScope := true, hasCluster := true, rows := [rowA, rowB] }

/-- The aggregate row that `threshold_data [rowA]` produces. -/
def aggA : PharmacyAggregate :=
  { codCRM := 1, total_net1rev_imponibile := 1500, tierCounts := [("Tier 2", 1)],
    tier23_net1rev_imponibile := some 1500, tier_2_and_3_count := 1 }

/-- C1: the classifier is the last-matching-rule fold over the ordered rules
2→3→4 starting from `Unassigned` (later rule always wins), and on the default
thresholds (1000, 1000, 2000, 2000) revenue 1500 is Gold, 2500 is Platinum and
500 is Unassigned. -/
theorem C1_classifier_is_ordered_overwrite :
    (∀ (cfg : ThresholdConfig) (rev : Int),
      partnership_category cfg rev = lastMatchCategory cfg rev) ∧
    partnership_category ⟨1000, 1000, 2000, 2000⟩ 1500 = PartnershipCategory.Gold ∧
    partnership_category ⟨1000, 1000, 2000, 2000⟩ 2500 = PartnershipCategory.Platinum ∧
    partnership_category ⟨1000, 1000, 2000, 2000⟩ 500 = PartnershipCategory.Unassigned := by
  refine ⟨fun cfg rev => ?_, by decide, by decide, by decide⟩
  simp only [partnership_category, lastMatchCategory, List.foldl, decide_eq_true_eq]

/-- C2 counterexample: with thresholds silver_min = 0, gold_min = 1000,
gold_max = 2000, platinum_min = 1000, a revenue exactly equal to `gold_min` is
classified Platinum, not Gold — the claim's "for every threshold
configuration" fails. -/
theorem C2_gold_min_boundary_counterexample :
    (1000 : Int) = (ThresholdConfig.mk 0 1000 2000 1000).gold_min ∧
    partnership_category (ThresholdConfig.mk 0 1000 2000 1000) 1000 =
      PartnershipCategory.Platinum := by
  decide

/-- C2 (amended): revenue exactly `gold_min` is Gold provided
`gold_min < gold_max` and `gold_min < platinum_min`; revenue exactly
`gold_max` is never Gold; revenue exactly `silver_min` is never Silver. -/
theorem C2_boundary_semantics (cfg : ThresholdConfig) (rev : Int) :
    (rev = cfg.gold_min → cfg.gold_min < cfg.gold_max →
      cfg.gold_min < cfg.platinum_min →
      partnership_category cfg rev = PartnershipCategory.Gold) ∧
    (rev = cfg.gold_max → partnership_category cfg rev ≠ PartnershipCategory.Gold) ∧
    (rev = cfg.silver_min → partnership_category cfg rev ≠ PartnershipCategory.Silver) := by
  unfold partnership_category
  refine ⟨fun h1 h2 h3 => ?_, fun h1 => ?_, fun h1 => ?_⟩ <;>
    split_ifs with hp hg hs <;>
      first | rfl | (exfalso; omega) | (simp_all; omega) | simp_all

/-- Witness for C2_boundary_semantics at the default thresholds. -/
theorem C2_boundary_semantics_witness :
    partnership_category ⟨1000, 1000, 2000, 2000⟩ 1000 = PartnershipCategory.Gold ∧
    partnership_category ⟨1000, 1000, 2000, 2000⟩ 2000 ≠ PartnershipCategory.Gold ∧
    partnership_category ⟨500, 1000, 2000, 2000⟩ 500 ≠ PartnershipCategory.Silver :=
  ⟨(C2_boundary_semantics ⟨1000, 1000, 2000, 2000⟩ 1000).1 rfl (by decide) (by decide),
   (C2_boundary_semantics ⟨1000, 1000, 2000, 2000⟩ 2000).2.1 rfl,
   (C2_boundary_semantics ⟨500, 1000, 2000, 2000⟩ 500).2.2 rfl⟩

/-- C3: a table missing only the optional `Product_Type` column is handled by
skipping that filter (line 32 initialises `products = []`), but a table
missing only the optional `Canale` column aborts with `NameError` at
`if canale:` (line 53) because line 32 never initialises `canale` — the code
contradicts the documented skip-optional-columns behaviour. -/
theorem C3_missing_canale_column_crashes :
    merged_pharmacies tableNoProductType noFilters = .ok [rowA] ∧
    merged_pharmacies tableNoCanale noFilters =
      .error "NameError: name canale is not defined" :=
  ⟨rfl, rfl⟩

/-- C5: when `gold_max < gold_min` classification still succeeds, the Gold
bucket is empty, and every pharmacy gets exactly the category it would get
from the classifier with the Gold rule removed. -/
theorem C5_inverted_gold_range (cfg : ThresholdConfig) (rev : Int)
    (h : cfg.gold_max < cfg.gold_min) :
    partnership_category cfg rev ≠ PartnershipCategory.Gold ∧
    partnership_category cfg rev = categoryWithoutGoldRule cfg rev := by
  have hg : ¬(cfg.gold_min ≤ rev ∧ rev < cfg.gold_max) := by omega
  unfold partnership_category categoryWithoutGoldRule
  dsimp only
  rw [if_neg hg]
  exact ⟨by split_ifs <;> simp, rfl⟩

/-- Witness for C5_inverted_gold_range with gold_max 1000 < gold_min 2000. -/
theorem C5_inverted_gold_range_witness :
    partnership_category ⟨1000, 2000, 1000, 3000⟩ 1500 ≠ PartnershipCategory.Gold ∧
    partnership_category ⟨1000, 2000, 1000, 3000⟩ 1500 =
      categoryWithoutGoldRule ⟨1000, 2000, 1000, 3000⟩ 1500 :=
  C5_inverted_gold_range ⟨1000, 2000, 1000, 3000⟩ 1500 (by decide)

/-- Helper: the sorted deduplicated values of a list depend only on the list
up to permutation. -/
theorem sortedDedup_perm {α : Type} [LinearOrder α] [DecidableEq α]
    {l₁ l₂ : List α} (h : l₁.Perm l₂) : sortedDedup l₁ = sortedDedup l₂ :=
  List.eq_of_perm_of_sorted
    ((List.perm_insertionSort _ _).trans (h.dedup.trans (List.perm_insertionSort _ _).symm))
    (List.sorted_insertionSort _ _) (List.sorted_insertionSort _ _)

/-- Helper: the pharmacy key index is permutation-invariant. -/
theorem sortedKeys_perm {rows₁ rows₂ : List Row} (h : rows₁.Perm rows₂) :
    sortedKeys rows₁ = sortedKeys rows₂ :=
  sortedDedup_perm (h.map _)

/-- Helper: the tier column index is permutation-invariant. -/
theorem tierLabels_perm {rows₁ rows₂ : List Row} (h : rows₁.Perm rows₂) :
    tierLabels rows₁ = tierLabels rows₂ :=
  sortedDedup_perm (h.map _)

/-- Helper: per-pharmacy revenue sums are permutation-invariant. -/
theorem totalRev_perm {rows₁ rows₂ : List Row} (h : rows₁.Perm rows₂) :
    ∀ p, totalRev rows₁ p = totalRev rows₂ p :=
  fun _ => ((h.filter _).map _).sum_eq

/-- Helper: distinct product counts are permutation-invariant. -/
theorem numProducts_perm {rows₁ rows₂ : List Row} (h : rows₁.Perm rows₂) :
    ∀ p t, numProducts rows₁ p t = numProducts rows₂ p t :=
  fun _ _ => (((h.filter _).map _).dedup).length_eq

/-- Helper: `List.any` is permutation-invariant. -/
theorem any_perm {α : Type} {l₁ l₂ : List α} (h : l₁.Perm l₂) :
    ∀ f : α → Bool, l₁.any f = l₂.any f := by
  intro f
  cases hf : l₂.any f
  · rw [List.any_eq_false] at hf ⊢
    exact fun x hx => hf x (h.mem_iff.mp hx)
  · rw [List.any_eq_true] at hf ⊢
    obtain ⟨x, hx, hfx⟩ := hf
    exact ⟨x, h.mem_iff.mpr hx, hfx⟩

/-- Helper: the tier-2/3 revenue table is permutation-invariant. -/
theorem rev_tier23_perm {rows₁ rows₂ : List Row} (h : rows₁.Perm rows₂) :
    rev_tier23 rows₁ = rev_tier23 rows₂ := by
  unfold rev_tier23
  dsimp only
  have ht : (rows₁.filter tier23).Perm (rows₂.filter tier23) := h.filter _
  rw [sortedKeys_perm ht]
  exact List.map_congr_left fun p _ => by rw [totalRev_perm ht p]

/-- C6: the Aggregator output — per-pharmacy total revenue, tier-2/3 revenue
subtotal and per-tier distinct product counts — is identical for any two
permutations of the filtered record set. -/
theorem C6_aggregation_order_independent (rows₁ rows₂ : List Row)
    (h : rows₁.Perm rows₂) :
    all_pharmacy_revenue rows₁ = all_pharmacy_revenue rows₂ ∧
    threshold_data rows₁ = threshold_data rows₂ := by
  constructor
  · unfold all_pharmacy_revenue
    rw [sortedKeys_perm h]
    exact List.map_congr_left fun p _ => by rw [totalRev_perm h p]
  · unfold threshold_data
    rw [sortedKeys_perm h]
    refine List.map_congr_left fun p _ => ?_
    simp only [totalRev_perm h, rev_tier23_perm h, tierLabels_perm h,
      numProducts_perm h, any_perm h]

/-- Witness for C6_aggregation_order_independent on a concrete two-row swap. -/
theorem C6_aggregation_order_independent_witness :
    all_pharmacy_revenue [rowA, rowB] = all_pharmacy_revenue [rowB, rowA] ∧
    threshold_data [rowA, rowB] = threshold_data [rowB, rowA] :=
  C6_aggregation_order_independent [rowA, rowB] [rowB, rowA]
    (List.Perm.swap rowB rowA [])

/-- Helper: a tier label occurring in no row contributes a zero distinct
product count for every pharmacy. -/
theorem numProducts_eq_zero_of_absent (rows : List Row) (p : Nat) (t : String)
    (h : (rows.any fun r => r.tier == t) = false) : numProducts rows p t = 0 := by
  unfold numProducts
  have hnil : rows.filter (fun r => r.codCRM == p && r.tier == t) = [] := by
    rw [List.filter_eq_nil_iff]
    intro a ha hpa
    rw [Bool.and_eq_true] at hpa
    rw [List.any_eq_false] at h
    exact h a ha (by simp [hpa.2])
  rw [hnil]
  rfl

/-- C7: every aggregate row's combined "Tier 2 & 3" product count is exactly
its tier-2 distinct product count plus its tier-3 distinct product count, an
absent (pharmacy, tier) combination — or an entirely absent tier column —
contributing zero. -/
theorem C7_tier_2_and_3_count_is_sum (rows : List Row) (a : PharmacyAggregate)
    (ha : a ∈ threshold_data rows) :
    a.tier_2_and_3_count =
      numProducts rows a.codCRM "Tier 2" + numProducts rows a.codCRM "Tier 3" := by
  unfold threshold_data at ha
  rw [List.mem_map] at ha
  obtain ⟨p, _, rfl⟩ := ha
  dsimp only
  split_ifs with h2 h3 h4 <;>
    simp_all [numProducts_eq_zero_of_absent, Bool.not_eq_true]

/-- Witness for C7_tier_2_and_3_count_is_sum on the one-row record set of
`rowA` (tier 3 entirely absent). -/
theorem C7_tier_2_and_3_count_is_sum_witness :
    aggA ∈ threshold_data [rowA] ∧
    aggA.tier_2_and_3_count =
      numProducts [rowA] aggA.codCRM "Tier 2" + numProducts [rowA] aggA.codCRM "Tier 3" :=
  ⟨by decide, C7_tier_2_and_3_count_is_sum [rowA] aggA (by decide)⟩

/-- Helper: binding after an `Except.error` propagates the error. -/
theorem except_error_bind {α β : Type} (e : String) (f : α → Except String β) :
    (Except.error e >>= f : Except String β) = Except.error e := rfl

/-- Helper: binding after an `Except.ok` applies the continuation. -/
theorem except_ok_bind {α β : Type} (a : α) (f : α → Except String β) :
    (Except.ok a >>= f : Except String β) = f a := rfl

/-- Helper: `pure` into `Except` is `Except.ok`. -/
theorem except_pure {α : Type} (a : α) : (pure a : Except String α) = Except.ok a := rfl

/-- Helper: a satisfied `require` succeeds. -/
theorem require_true (msg : String) : require true msg = .ok () := rfl

/-- Helper: a failed `require` raises the exception. -/
theorem require_false (msg : String) : require false msg = .error msg := rfl

/-- Helper: when the three multiselect variables are defined (their columns
present), `df_filtered` succeeds with exactly the conditional filter chain. -/
theorem df_filtered_of_flags (t : Table) (fs : Filters)
    (hCau : t.hasCausale = true) (hCan : t.hasCanale = true) (hSc : t.hasScope = true) :
    df_filtered t fs = .ok (appliedFilters t fs) := by
  unfold df_filtered appliedFilters
  rw [hCau, hCan, hSc]
  rfl

/-- Helper: a table without the `Causale` column makes `df_filtered` raise
the `NameError` of line 51. -/
theorem df_filtered_err_causale (t : Table) (fs : Filters)
    (hCau : t.hasCausale = false) :
    df_filtered t fs = .error "NameError: name causale is not defined" := by
  unfold df_filtered
  rw [hCau]
  rfl

/-- Helper: a table with `Causale` but without `Canale` makes `df_filtered`
raise the `NameError` of line 53. -/
theorem df_filtered_err_canale (t : Table) (fs : Filters)
    (hCau : t.hasCausale = true) (hCan : t.hasCanale = false) :
    df_filtered t fs = .error "NameError: name canale is not defined" := by
  unfold df_filtered
  rw [hCau, hCan]
  rfl

/-- Helper: a table with `Causale` and `Canale` but without the scope-flag
column makes `df_filtered` raise the `NameError` of line 55. -/
theorem df_filtered_err_scope (t : Table) (fs : Filters)
    (hCau : t.hasCausale = true) (hCan : t.hasCanale = true) (hSc : t.hasScope = false) :
    df_filtered t fs = .error "NameError: name scope_filter is not defined" := by
  unfold df_filtered
  rw [hCau, hCan, hSc]
  rfl

/-- Helper: one conditional inclusion filter equals an unconditional filter by
`passOpt`. -/
theorem condFilter_eq (sel : List String) (f : Row → String) (l : List Row) :
    (if sel.isEmpty then l else l.filter fun x => sel.contains (f x)) =
    l.filter fun x => passOpt sel (f x) := by
  cases sel with
  | nil => simp [passOpt]
  | cons a as => simp [passOpt]

/-- Helper: a successful `df_filtered` run returns exactly the rows passing
all supplied user filters. -/
theorem df_filtered_ok (t : Table) (fs : Filters) (out : List Row)
    (h : df_filtered t fs = .ok out) :
    out = t.rows.filter fun r => userPass t fs r := by
  cases hCau : t.hasCausale with
  | false => rw [df_filtered_err_causale t fs hCau] at h; simp at h
  | true =>
  cases hCan : t.hasCanale with
  | false => rw [df_filtered_err_canale t fs hCau hCan] at h; simp at h
  | true =>
  cases hSc : t.hasScope with
  | false => rw [df_filtered_err_scope t fs hCau hCan hSc] at h; simp at h
  | true =>
  rw [df_filtered_of_flags t fs hCau hCan hSc, Except.ok.injEq] at h
  subst h
  unfold appliedFilters
  dsimp only
  rw [condFilter_eq, condFilter_eq, condFilter_eq, condFilter_eq, condFilter_eq]
  simp only [List.filter_filter]
  apply List.filter_congr
  intro x hx
  unfold userPass
  cases passOpt (if t.hasChannel then fs.channels else []) x.Channel <;>
    cases passOpt (if t.hasProductType then fs.products else []) x.Product_Type <;>
    cases passOpt fs.causale x.Causale <;>
    cases passOpt fs.canale x.Canale <;>
    cases passOpt fs.scope_filter x.outOfScopeFilter <;> rfl

/-- Helper: a successful `merged_pharmacies` run returns exactly the rows
passing all supplied user filters and the fixed eligibility rule. -/
theorem merged_pharmacies_ok (t : Table) (fs : Filters) (out : List Row)
    (h : merged_pharmacies t fs = .ok out) :
    out = t.rows.filter fun r => userPass t fs r && fixedRule r := by
  unfold merged_pharmacies at h
  cases hdf : df_filtered t fs with
  | error e => rw [hdf, except_error_bind] at h; simp at h
  | ok dff =>
  rw [hdf, except_ok_bind] at h
  cases hCh : t.hasChannel with
  | false => rw [hCh, require_false, except_error_bind] at h; simp at h
  | true =>
  rw [hCh, require_true, except_ok_bind] at h
  cases hCau : t.hasCausale with
  | false => rw [hCau, require_false, except_error_bind] at h; simp at h
  | true =>
  rw [hCau, require_true, except_ok_bind] at h
  cases hSc : t.hasScope with
  | false => rw [hSc, require_false, except_error_bind] at h; simp at h
  | true =>
  rw [hSc, require_true, except_ok_bind] at h
  cases hCl : t.hasCluster with
  | false => rw [hCl, require_false, except_error_bind] at h; simp at h
  | true =>
  rw [hCl, require_true, except_ok_bind, except_pure, Except.ok.injEq] at h
  subst h
  rw [df_filtered_ok t fs dff hdf, List.filter_filter]
  exact List.filter_congr fun a _ => Bool.and_comm _ _

/-- C4: a row belongs to the filtered record set exactly when it passes every
supplied per-column inclusion list (an unsupplied filter passes all values)
and the fixed eligibility rule (Channel, Causale, scope flag, and one of the
two cluster-check codes); all other rows are excluded. -/
theorem C4_row_inclusion_characterisation (t : Table) (fs : Filters) (out : List Row)
    (h : merged_pharmacies t fs = .ok out) :
    out = t.rows.filter (fun r => userPass t fs r && fixedRule r) ∧
    ∀ r : Row, r ∈ out ↔ r ∈ t.rows ∧ (userPass t fs r && fixedRule r) = true := by
  have main := merged_pharmacies_ok t fs out h
  exact ⟨main, fun r => by rw [main]; simp [List.mem_filter]⟩

/-- Witness for C4_row_inclusion_characterisation on a concrete table. -/
theorem C4_row_inclusion_characterisation_witness :
    [rowA, rowB] = tableAB.rows.filter
      (fun r => userPass tableAB noFilters r && fixedRule r) :=
  (C4_row_inclusion_characterisation tableAB noFilters [rowA, rowB] rfl).1

/-- C8: the grand-total values are the sums of the per-category pharmacy
counts and revenues over exactly the Silver, Gold and Platinum summary rows,
excluding Unassigned; and when every pharmacy is Unassigned the grand total is
count 0, revenue 0. -/
theorem C8_grand_total_excludes_unassigned (cfg : ThresholdConfig) (rows : List Row) :
    (total_row cfg rows).1 =
      num_pharmacies cfg rows PartnershipCategory.Silver +
      num_pharmacies cfg rows PartnershipCategory.Gold +
      num_pharmacies cfg rows PartnershipCategory.Platinum ∧
    (total_row cfg rows).2 =
      total_revenue cfg rows PartnershipCategory.Silver +
      total_revenue cfg rows PartnershipCategory.Gold +
      total_revenue cfg rows PartnershipCategory.Platinum ∧
    ((∀ p ∈ sortedKeys rows, categoryOf cfg rows p = PartnershipCategory.Unassigned) →
      total_row cfg rows = (0, 0)) := by
  have h1 : (total_row cfg rows).1 =
      num_pharmacies cfg rows PartnershipCategory.Silver +
      (num_pharmacies cfg rows PartnershipCategory.Gold +
       (num_pharmacies cfg rows PartnershipCategory.Platinum + 0)) := rfl
  have h2 : (total_row cfg rows).2 =
      total_revenue cfg rows PartnershipCategory.Silver +
      (total_revenue cfg rows PartnershipCategory.Gold +
       (total_revenue cfg rows PartnershipCategory.Platinum + 0)) := rfl
  refine ⟨by omega, by omega, ?_⟩
  intro hU
  have hcat : ∀ c, c ≠ PartnershipCategory.Unassigned →
      ((sortedKeys rows).filter fun p => categoryOf cfg rows p == c) = [] := by
    intro c hc
    rw [List.filter_eq_nil_iff]
    intro p hp hpc
    rw [hU p hp, beq_iff_eq] at hpc
    exact hc hpc.symm
  have zS : num_pharmacies cfg rows PartnershipCategory.Silver = 0 := by
    unfold num_pharmacies; rw [hcat _ (by decide)]; rfl
  have zG : num_pharmacies cfg rows PartnershipCategory.Gold = 0 := by
    unfold num_pharmacies; rw [hcat _ (by decide)]; rfl
  have zP : num_pharmacies cfg rows PartnershipCategory.Platinum = 0 := by
    unfold num_pharmacies; rw [hcat _ (by decide)]; rfl
  have rS : total_revenue cfg rows PartnershipCategory.Silver = 0 := by
    unfold total_revenue; rw [hcat _ (by decide)]; rfl
  have rG : total_revenue cfg rows PartnershipCategory.Gold = 0 := by
    unfold total_revenue; rw [hcat _ (by decide)]; rfl
  have rP : total_revenue cfg rows PartnershipCategory.Platinum = 0 := by
    unfold total_revenue; rw [hcat _ (by decide)]; rfl
  have hpair : total_row cfg rows = ((total_row cfg rows).1, (total_row cfg rows).2) := rfl
  rw [hpair, h1, h2, zS, zG, zP, rS, rG, rP]
  rfl

/-- Witness for C8_grand_total_excludes_unassigned: the all-Unassigned case on
the empty aggregate. -/
theorem C8_grand_total_excludes_unassigned_witness :
    total_row ⟨1000, 1000, 2000, 2000⟩ [] = (0, 0) :=
  (C8_grand_total_excludes_unassigned ⟨1000, 1000, 2000, 2000⟩ []).2.2 (by decide)

/-- C9: an empty filtered record set is not an error — the engine returns the
empty aggregate, a pivot whose four category columns are all empty, and a
summary table of all-zero category rows with a grand total of count 0,
revenue 0. -/
theorem C9_empty_record_set_not_error (t : Table) (fs : Filters) (cfg : ThresholdConfig)
    (h : merged_pharmacies t fs = .ok []) :
    compute t fs cfg = .ok ([], categoryOrder.map fun c => (c, ([] : List Nat)),
      [("Silver", 0, 0), ("Gold", 0, 0), ("Platinum", 0, 0), ("Unassigned", 0, 0),
       ("Total Net 1 Rev Imponibile (ex-Unassigned)", 0, 0)]) := by
  unfold compute
  rw [h, except_ok_bind]
  rfl

/-- Witness for C9_empty_record_set_not_error on a table with no rows. -/
theorem C9_empty_record_set_not_error_witness :
    compute tableNoRows noFilters ⟨1000, 1000, 2000, 2000⟩ =
      .ok ([], categoryOrder.map fun c => (c, ([] : List Nat)),
        [("Silver", 0, 0), ("Gold", 0, 0), ("Platinum", 0, 0), ("Unassigned", 0, 0),
         ("Total Net 1 Rev Imponibile (ex-Unassigned)", 0, 0)]) :=
  C9_empty_record_set_not_error tableNoRows noFilters ⟨1000, 1000, 2000, 2000⟩ rfl

/-- C10: the classification and both output tables depend only on the
thresholds, the pharmacy key index, and the per-pharmacy revenue sums — two
record sets with the same keys and the same revenue sums (for instance the
same rows with tier labels and brand identifiers relabelled) yield identical
category assignments, category pivot and summary table; the tier metrics of
`threshold_data` are never read by the classifier or the table builder. -/
theorem C10_tables_depend_only_on_revenue (cfg : ThresholdConfig)
    (rows₁ rows₂ : List Row)
    (hk : sortedKeys rows₁ = sortedKeys rows₂)
    (hr : ∀ p ∈ sortedKeys rows₁, totalRev rows₁ p = totalRev rows₂ p) :
    (∀ p ∈ sortedKeys rows₁, categoryOf cfg rows₁ p = categoryOf cfg rows₂ p) ∧
    category_table_pivot cfg rows₁ = category_table_pivot cfg rows₂ ∧
    summary_table cfg rows₁ = summary_table cfg rows₂ := by
  have hcat : ∀ p ∈ sortedKeys rows₁, categoryOf cfg rows₁ p = categoryOf cfg rows₂ p := by
    intro p hp
    unfold categoryOf
    rw [hr p hp]
  have hfil : ∀ c, ((sortedKeys rows₁).filter fun p => categoryOf cfg rows₁ p == c) =
      ((sortedKeys rows₂).filter fun p => categoryOf cfg rows₂ p == c) := by
    intro c
    rw [← hk]
    exact List.filter_congr fun p hp => by rw [hcat p hp]
  have hnum : ∀ c, num_pharmacies cfg rows₁ c = num_pharmacies cfg rows₂ c := by
    intro c
    unfold num_pharmacies
    rw [hfil c]
  have hrev : ∀ c, total_revenue cfg rows₁ c = total_revenue cfg rows₂ c := by
    intro c
    unfold total_revenue
    rw [← hfil c]
    congr 1
    exact List.map_congr_left fun p hp => hr p (List.mem_filter.mp hp).1
  have hsum : summary_rows cfg rows₁ = summary_rows cfg rows₂ := by
    unfold summary_rows
    exact List.map_congr_left fun c _ => by rw [hnum c, hrev c]
  refine ⟨hcat, ?_, ?_⟩
  · unfold category_table_pivot
    exact List.map_congr_left fun c _ => by rw [hfil c]
  · unfold summary_table total_row
    rw [hsum]

/-- Witness for C10_tables_depend_only_on_revenue: `rowA` against the same
row with relabelled tier and brand. -/
theorem C10_tables_depend_only_on_revenue_witness :
    category_table_pivot ⟨1000, 1000, 2000, 2000⟩ [rowA] =
      category_table_pivot ⟨1000, 1000, 2000, 2000⟩ [rowARelabelled] ∧
    summary_table ⟨1000, 1000, 2000, 2000⟩ [rowA] =
      summary_table ⟨1000, 1000, 2000, 2000⟩ [rowARelabelled] :=
  ⟨(C10_tables_depend_only_on_revenue ⟨1000, 1000, 2000, 2000⟩ [rowA] [rowARelabelled]
      (by decide) (by decide)).2.1,
   (C10_tables_depend_only_on_revenue ⟨1000, 1000, 2000, 2000⟩ [rowA] [rowARelabelled]
      (by decide) (by decide)).2.2⟩
